import Mathlib

/-!
# Verification of the rolling-window sensor pipeline of `temp.py`

A shallow embedding of the core data pipeline of the temperature logger:
record parsing, derived-quantity computation (dew point, absolute
humidity), the bounded rolling buffers (Python `deque(maxlen=...)`),
time-window filtering and axis-range auto-scaling, and the per-tick
update step of `InteractivePlot.update_plot`.

Numbers are modelled as rationals (`ℚ`); the transcendental functions
`math.log` and `math.exp` are abstracted as function parameters, since
the claims under verification concern the formula structure and the
control/data flow, not the numerics of the transcendental library calls.
Timestamps are rationals measured in seconds (a `timedelta` of 20 seconds
is the rational `20`).

A Python exception that escapes a function is modelled by an `Option`
result of `none` (for `adjust_y_axis_ranges`, where `min([])` can raise
`ValueError`) or by the `TickResult.error` outcome (for the uncaught
`ValueError` of a failing `float(...)` conversion in `update_plot`).
-/

namespace TempLogger

/-- Outcome of one timer tick of `InteractivePlot.update_plot`:
`noData` models `ser.in_waiting == 0`; `skipped` models a line whose
comma-split does not have exactly 4 fields (the `if len(parts) == 4`
guard fails and the body is skipped); `error` models an uncaught Python
exception escaping the callback; `ok` is a completed successful tick. -/
inductive TickResult where
  | noData
  | skipped
  | error
  | ok
deriving DecidableEq, Repr

/-- `calculate_dew_point(temp, rh)` from `temp.py` lines 15-19, with
`math.log` abstracted as the parameter `log`:
`a = 17.27; b = 237.7; alpha = ((a*temp)/(b+temp)) + log(rh/100.0);
return (b*alpha)/(a-alpha)`. -/
def calculate_dew_point (log : ℚ → ℚ) (temp rh : ℚ) : ℚ :=
  let a : ℚ := 17.27
  let b : ℚ := 237.7
  let alpha : ℚ := ((a * temp) / (b + temp)) + log (rh / 100.0)
  (b * alpha) / (a - alpha)

/-- `calculate_absolute_humidity(temp, rh)` from `temp.py` lines 21-22,
with `math.exp` abstracted as the parameter `exp`. -/
def calculate_absolute_humidity (exp : ℚ → ℚ) (temp rh : ℚ) : ℚ :=
  (6.112 * exp ((17.67 * temp) / (temp + 243.5)) * rh * 2.1674) / (273.15 + temp)

/-- `self.max_points = 4 * 60 * 60` (`temp.py` line 75): the shared
`maxlen` of all six data deques. -/
def maxPoints : ℕ := 4 * 60 * 60

/-- Append to a Python `deque(maxlen = m)`: the new element is added on
the right and, if the length would exceed `m`, elements are discarded
from the left so that exactly the last `m` elements remain. -/
def dappend (m : ℕ) (xs : List ℚ) (x : ℚ) : List ℚ :=
  if xs.length < m then xs ++ [x]
  else (xs ++ [x]).drop (xs.length + 1 - m)

/-- The mutable state of `InteractivePlot` that the core pipeline touches:
the six data deques (lines 76-81), `start_time` (line 87), `time_range`
(line 92), and the four y-axis ranges plus the shared x-range kept by the
matplotlib axes (`set_ylim` / `set_xlim` targets). -/
structure SensorState where
  timestamps : List ℚ
  temperatures : List ℚ
  temp_avg : List ℚ
  rel_humidities : List ℚ
  abs_humidities : List ℚ
  dew_points : List ℚ
  start_time : Option ℚ
  time_range : ℚ
  ax1 : ℚ × ℚ
  ax2 : ℚ × ℚ
  ax3 : ℚ × ℚ
  ax4 : ℚ × ℚ
  xlim : ℚ × ℚ
deriving DecidableEq, Repr

/-- The state right after `InteractivePlot.__init__`: all deques empty,
`start_time = None`, default time range 4 hours (14400 s); the axis
ranges start at matplotlib's default `(0, 1)`. -/
def initState : SensorState :=
  { timestamps := []
    temperatures := []
    temp_avg := []
    rel_humidities := []
    abs_humidities := []
    dew_points := []
    start_time := none
    time_range := 14400
    ax1 := (0, 1)
    ax2 := (0, 1)
    ax3 := (0, 1)
    ax4 := (0, 1)
    xlim := (0, 1) }

/-- Numeric value of a list of decimal digit characters. -/
def digitsVal (cs : List Char) : ℕ :=
  cs.foldl (fun n c => 10 * n + (c.toNat - 48)) 0

/-- Python `str.strip()` on a character list: leading and trailing
whitespace removed. -/
def pyStrip (cs : List Char) : List Char :=
  ((cs.dropWhile Char.isWhitespace).reverse.dropWhile Char.isWhitespace).reverse

/-- Python `str.split(sep)` on a character list: `pySplit ',' "a,b"` is
`["a", "b"]`, the empty string splits to `[""]`. -/
def pySplit (sep : Char) : List Char → List (List Char)
  | [] => [[]]
  | c :: rest =>
    match pySplit sep rest with
    | [] => [[c]]
    | g :: gs => if c = sep then [] :: g :: gs else (c :: g) :: gs

/-- Sign factor of a decimal literal: `-1` for a leading minus. -/
def pySign (t : List Char) : ℚ :=
  match t with
  | '-' :: _ => -1
  | _ => 1

/-- A decimal literal with any single leading sign character removed. -/
def pyBody (t : List Char) : List Char :=
  match t with
  | '-' :: r => r
  | '+' :: r => r
  | r => r

/-- Models CPython `float(s)` restricted to plain signed decimal
literals: optional surrounding whitespace, optional sign, digits with an
optional single decimal point (at least one digit overall). Returns
`none` when `float` would raise `ValueError` (e.g. on `"abc"`).
Exponent, `inf` and `nan` forms are not produced by the device's wire
format and are not modelled. -/
def parseFloat (s : List Char) : Option ℚ :=
  let t := pyStrip s
  match pySplit '.' (pyBody t) with
  | [ip] =>
    if ip.length > 0 && ip.all Char.isDigit then
      some (pySign t * (digitsVal ip : ℚ))
    else none
  | [ip, fp] =>
    if (ip.length + fp.length > 0) && ip.all Char.isDigit
        && fp.all Char.isDigit then
      some (pySign t * ((digitsVal ip : ℚ)
        + (digitsVal fp : ℚ) / (10 ^ fp.length : ℚ)))
    else none
  | _ => none

/-- The list comprehension pattern of `adjust_y_axis_ranges`
(`temp.py` lines 153-157): values of `vals` whose paired timestamp in
`tss` (via `zip`) satisfies `ts >= start`. -/
def zipFilter (vals tss : List ℚ) (start : ℚ) : List ℚ :=
  ((vals.zip tss).filter (fun p => decide (start ≤ p.2))).map Prod.fst

/-- `visible_timestamps = [t for t in self.timestamps if t >= start_time]`
(`temp.py` line 152). -/
def visibleTimestamps (tss : List ℚ) (start : ℚ) : List ℚ :=
  tss.filter (fun t => decide (start ≤ t))

/-- Python `min` over a non-empty list (the empty-list value `0` is never
used on the paths where the code calls `min`, which are guarded by
non-emptiness except for `visible_temp_avgs`, whose possible emptiness is
modelled as a crash in `applyAx1`). -/
def listMin (l : List ℚ) : ℚ :=
  l.foldl min (l.headD 0)

/-- Python `max` over a non-empty list; see `listMin`. -/
def listMax (l : List ℚ) : ℚ :=
  l.foldl max (l.headD 0)

/-- `temp.py` lines 160-163: if `visible_temps` is non-empty, set the
temperature axis from the minima/maxima of `visible_temps` and
`visible_temp_avgs`. Python evaluates `min(visible_temps)` first; if
`visible_temp_avgs` is then empty, `min([])` raises `ValueError`,
modelled as `none`. -/
def applyAx1 (st : SensorState) (visTemps visAvgs : List ℚ) : Option SensorState :=
  match visTemps, visAvgs with
  | [], _ => some st
  | _ :: _, [] => none
  | _ :: _, _ :: _ =>
    some { st with ax1 := (min (listMin visTemps) (listMin visAvgs) - 1,
                           max (listMax visTemps) (listMax visAvgs) + 1) }

/-- `temp.py` lines 165-167: humidity axis `[max(0, rh_min - 5),
min(100, rh_max + 5)]` when `visible_rhs` is non-empty. -/
def applyAx2 (st : SensorState) (visRhs : List ℚ) : SensorState :=
  match visRhs with
  | [] => st
  | _ :: _ => { st with ax2 := (max 0 (listMin visRhs - 5),
                                min 100 (listMax visRhs + 5)) }

/-- `temp.py` lines 169-171: absolute-humidity axis
`[ah_min - 0.5, ah_max + 0.5]` when `visible_ahs` is non-empty. -/
def applyAx3 (st : SensorState) (visAhs : List ℚ) : SensorState :=
  match visAhs with
  | [] => st
  | _ :: _ => { st with ax3 := (listMin visAhs - 0.5, listMax visAhs + 0.5) }

/-- `temp.py` lines 173-175: dew-point axis `[dp_min - 1, dp_max + 1]`
when `visible_dps` is non-empty. -/
def applyAx4 (st : SensorState) (visDps : List ℚ) : SensorState :=
  match visDps with
  | [] => st
  | _ :: _ => { st with ax4 := (listMin visDps - 1, listMax visDps + 1) }

/-- `InteractivePlot.adjust_y_axis_ranges` (`temp.py` lines 147-175).
`tAdj` is the `datetime.now()` taken at line 148. Returns `none` when
the Python code would raise (only possible through `applyAx1`). -/
def adjust_y (st : SensorState) (tAdj : ℚ) : Option SensorState :=
  let start := tAdj - st.time_range
  let visTemps := zipFilter st.temperatures st.timestamps start
  let visAvgs := zipFilter st.temp_avg st.timestamps start
  let visRhs := zipFilter st.rel_humidities st.timestamps start
  let visAhs := zipFilter st.abs_humidities st.timestamps start
  let visDps := zipFilter st.dew_points st.timestamps start
  (applyAx1 st visTemps visAvgs).map
    (fun s1 => applyAx4 (applyAx3 (applyAx2 s1 visRhs) visAhs) visDps)

/-- The `if/elif` chain of `update_time_range` (`temp.py` lines 178-187)
translating the selector index to a `timedelta`, in seconds. -/
def newRangeOfIndex (index : ℕ) : ℚ :=
  if index = 0 then 60
  else if index = 1 then 300
  else if index = 2 then 1200
  else if index = 3 then 3600
  else 14400

/-- `InteractivePlot.update_time_range` (`temp.py` lines 177-195):
translate the selector index to a duration (in seconds), set the shared
x-range of all four axes to `[now - range, now]`, then re-run
`adjust_y_axis_ranges`. `tSel` is the `datetime.now()` of line 190 and
`tAdj` the one taken inside `adjust_y_axis_ranges`. -/
def update_time_range (st : SensorState) (index : ℕ) (tSel tAdj : ℚ) : Option SensorState :=
  adjust_y { st with time_range := newRangeOfIndex index,
                     xlim := (tSel - newRangeOfIndex index, tSel) } tAdj

/-- `temp.py` lines 111-115: the five appends performed on a successful
parse (`timestamps`, `temperatures`, `rel_humidities`, `abs_humidities`,
`dew_points`), each into a deque of `maxlen = maxPoints`. -/
def appendCore (st : SensorState) (temp rh ah dp tNow : ℚ) : SensorState :=
  { st with
    timestamps := dappend maxPoints st.timestamps tNow
    temperatures := dappend maxPoints st.temperatures temp
    rel_humidities := dappend maxPoints st.rel_humidities rh
    abs_humidities := dappend maxPoints st.abs_humidities ah
    dew_points := dappend maxPoints st.dew_points dp }

/-- `temp.py` lines 118-119: `recent_temps = [t for t, ts in
zip(self.temperatures, self.timestamps) if ts > twenty_sec_ago]`, where
`twenty_sec_ago = current_time - 20s`.  Evaluated on the state *after*
the appends of lines 111-115. -/
def recentTemps (st : SensorState) (tNow : ℚ) : List ℚ :=
  ((st.temperatures.zip st.timestamps).filter (fun p => decide (tNow - 20 < p.2))).map Prod.fst

/-- The state after the data-mutating part of a successful tick
(`temp.py` lines 104-124): record `start_time` on the first sample,
compute the derived quantities, perform the five appends of lines
111-115, then the moving-average computation and append of lines
117-124. -/
def successState (log exp : ℚ → ℚ) (st : SensorState) (temp rh tNow : ℚ) : SensorState :=
  let st0 := { st with start_time :=
    match st.start_time with
    | none => some tNow
    | some s0 => some s0 }
  let ah := calculate_absolute_humidity exp temp rh
  let dp := calculate_dew_point log temp rh
  let st1 := appendCore st0 temp rh ah dp tNow
  let recent := recentTemps st1 tNow
  let avgVal : ℚ :=
    if recent = [] then temp else recent.sum / (recent.length : ℚ)
  { st1 with temp_avg := dappend maxPoints st1.temp_avg avgVal }

/-- Outcome of the parse phase of `update_plot` (`temp.py` lines 96-102):
`wrongFields` when `line.split(',')` does not have exactly 4 parts (the
`if len(parts) == 4` guard fails, body silently skipped); `floatError`
when `float(temp)` or `float(rh)` raises `ValueError` (no `try/except`
in the code, so the exception escapes); `parsed temp rh` on success. -/
inductive ParsePhase where
  | wrongFields
  | floatError
  | parsed (temp rh : ℚ)
deriving DecidableEq, Repr

/-- The parse phase of `update_plot` (`temp.py` lines 96-102): strip and
split the decoded line on commas, require exactly 4 fields, convert
fields 2 and 3 with `float` (`float(temp)` is evaluated first, at line
101, then `float(rh)` at line 102). -/
def parsePhase (rawLine : String) : ParsePhase :=
  match pySplit ',' (pyStrip rawLine.toList) with
  | [_, tempStr, rhStr, _] =>
    match parseFloat tempStr with
    | none => ParsePhase.floatError
    | some temp =>
      match parseFloat rhStr with
      | none => ParsePhase.floatError
      | some rh => ParsePhase.parsed temp rh
  | _ => ParsePhase.wrongFields

/-- The rest of a successful tick after the buffer mutation (`temp.py`
lines 126-137): `st2` is the post-append state produced by
`successState`; re-scale the y axes (`adjust_y_axis_ranges`, line 132;
an exception there escapes after the appends), then set the shared
x-range to `[current_time - self.time_range, current_time]` (lines
134-135). -/
def tickSuccess (st2 : SensorState) (tNow tAdj : ℚ) : SensorState × TickResult :=
  match adjust_y st2 tAdj with
  | none => (st2, TickResult.error)
  | some st3 => ({ st3 with xlim := (tNow - st3.time_range, tNow) }, TickResult.ok)

/-- One timer tick, `InteractivePlot.update_plot` (`temp.py` lines
94-145). `input = none` models `ser.in_waiting == 0`; otherwise `input`
is the decoded line. `tNow` is the `datetime.now()` of line 104 and
`tAdj` the one taken inside `adjust_y_axis_ranges` (line 148). A failing
`float(...)` conversion (lines 101-102) raises an uncaught `ValueError`
before any deque is mutated: the state is returned unchanged with
outcome `error`. -/
def updateStep (log exp : ℚ → ℚ) (st : SensorState) (input : Option String)
    (tNow tAdj : ℚ) : SensorState × TickResult :=
  match input with
  | none => (st, TickResult.noData)
  | some rawLine =>
    match parsePhase rawLine with
    | ParsePhase.wrongFields => (st, TickResult.skipped)
    | ParsePhase.floatError => (st, TickResult.error)
    | ParsePhase.parsed temp rh =>
      tickSuccess (successState log exp st temp rh tNow) tNow tAdj

/-- Run a sequence of ticks from the freshly initialised state; each tick
carries its serial input (or `none` for a no-data tick) and the two
`datetime.now()` instants of that tick. -/
def runTicks (log exp : ℚ → ℚ) (ticks : List (Option String × ℚ × ℚ)) : SensorState :=
  ticks.foldl (fun s t => (updateStep log exp s t.1 t.2.1 t.2.2).1) initState

/-- Alignment invariant of the six parallel deques: all have the length
of `timestamps`. -/
def sameLen (st : SensorState) : Prop :=
  st.temperatures.length = st.timestamps.length ∧
  st.temp_avg.length = st.timestamps.length ∧
  st.rel_humidities.length = st.timestamps.length ∧
  st.abs_humidities.length = st.timestamps.length ∧
  st.dew_points.length = st.timestamps.length

instance (st : SensorState) : Decidable (sameLen st) := by
  unfold sameLen
  infer_instance

/-- From the spec: the most recent `n` entries of a sequence in append
order (the suffix of length `min (length l) n`). -/
def lastN (n : ℕ) (l : List ℚ) : List ℚ :=
  l.drop (l.length - n)

/-- From the spec (§6, user control surface): selector indices 0..4 map
to the durations 1 min, 5 min, 20 min, 1 hr, 4 hr, in seconds. -/
def durationOfIndex (i : ℕ) : ℚ :=
  [(60 : ℚ), 300, 1200, 3600, 14400].getD i 14400

/-- From the spec (§4.4): temperature axis
`[min(temp, avg) - 1, max(temp, avg) + 1]` over the union of the two
series. -/
def specTempAxis (temps avgs : List ℚ) : ℚ × ℚ :=
  (min (listMin temps) (listMin avgs) - 1, max (listMax temps) (listMax avgs) + 1)

/-- From the spec (§4.4): humidity axis
`[max(0, min_rh - 5), min(100, max_rh + 5)]`. -/
def specRhAxis (rhs : List ℚ) : ℚ × ℚ :=
  (max 0 (listMin rhs - 5), min 100 (listMax rhs + 5))

/-- From the spec (§4.4): absolute-humidity axis
`[min_ah - 0.5, max_ah + 0.5]`. -/
def specAhAxis (ahs : List ℚ) : ℚ × ℚ :=
  (listMin ahs - 1 / 2, listMax ahs + 1 / 2)

/-- From the spec (§4.4): dew-point axis `[min_dp - 1, max_dp + 1]`. -/
def specDpAxis (dps : List ℚ) : ℚ × ℚ :=
  (listMin dps - 1, listMax dps + 1)

/-- From the spec (§4.1): the Magnus dew-point formula with `a = 17.27`,
`b = 237.7`, `alpha = (a*temp)/(b+temp) + ln(rh/100)`, result
`b*alpha/(a-alpha)`. -/
def magnusDewPoint (log : ℚ → ℚ) (temp rh : ℚ) : ℚ :=
  (237.7 * ((17.27 * temp) / (237.7 + temp) + log (rh / 100)))
    / (17.27 - ((17.27 * temp) / (237.7 + temp) + log (rh / 100)))

/-- `visible_temps` of `adjust_y_axis_ranges` (`temp.py` line 153) for a
reference instant `tAdj` and the currently selected `time_range`. -/
def visTempsOf (st : SensorState) (tAdj : ℚ) : List ℚ :=
  zipFilter st.temperatures st.timestamps (tAdj - st.time_range)

/-- `visible_temp_avgs` (`temp.py` line 154). -/
def visAvgsOf (st : SensorState) (tAdj : ℚ) : List ℚ :=
  zipFilter st.temp_avg st.timestamps (tAdj - st.time_range)

/-- `visible_rhs` (`temp.py` line 155). -/
def visRhsOf (st : SensorState) (tAdj : ℚ) : List ℚ :=
  zipFilter st.rel_humidities st.timestamps (tAdj - st.time_range)

/-- `visible_ahs` (`temp.py` line 156). -/
def visAhsOf (st : SensorState) (tAdj : ℚ) : List ℚ :=
  zipFilter st.abs_humidities st.timestamps (tAdj - st.time_range)

/-- `visible_dps` (`temp.py` line 157). -/
def visDpsOf (st : SensorState) (tAdj : ℚ) : List ℚ :=
  zipFilter st.dew_points st.timestamps (tAdj - st.time_range)

/-- The fields of the state that `adjust_y_axis_ranges` never mutates
(everything except the four y-axis ranges), used to state frame
conditions. -/
def coreFields (st : SensorState) :
    List ℚ × List ℚ × List ℚ × List ℚ × List ℚ × List ℚ × Option ℚ × ℚ × (ℚ × ℚ) :=
  (st.timestamps, st.temperatures, st.temp_avg, st.rel_humidities,
   st.abs_humidities, st.dew_points, st.start_time, st.time_range, st.xlim)

/-- A one-sample state used as a concrete witness input for the
axis-range theorems. -/
def wState : SensorState :=
  { timestamps := [10]
    temperatures := [20]
    temp_avg := [21]
    rel_humidities := [50]
    abs_humidities := [5]
    dew_points := [9]
    start_time := some 10
    time_range := 100
    ax1 := (0, 1)
    ax2 := (0, 1)
    ax3 := (0, 1)
    ax4 := (0, 1)
    xlim := (0, 1) }

/-! ## Helper lemmas -/

lemma dappend_eq_drop_append (m : ℕ) (hm : 1 ≤ m) (xs : List ℚ) (x : ℚ) :
    dappend m xs x = xs.drop (xs.length + 1 - m) ++ [x] := by
  unfold dappend
  by_cases h : xs.length < m
  · rw [if_pos h]
    have e : xs.length + 1 - m = 0 := by omega
    rw [e, List.drop_zero]
  · rw [if_neg h]
    rw [List.drop_append_eq_append_drop]
    have e : xs.length + 1 - m - xs.length = 0 := by omega
    rw [e, List.drop_zero]

lemma lastN_append_one (m : ℕ) (hm : 1 ≤ m) (xs : List ℚ) (x : ℚ) :
    lastN m (xs ++ [x]) = xs.drop (xs.length + 1 - m) ++ [x] := by
  unfold lastN
  rw [List.drop_append_eq_append_drop, List.length_append]
  simp only [List.length_singleton]
  have e : xs.length + 1 - m - xs.length = 0 := by omega
  rw [e, List.drop_zero]

lemma dappend_eq_lastN (m : ℕ) (hm : 1 ≤ m) (xs : List ℚ) (x : ℚ) :
    dappend m xs x = lastN m (xs ++ [x]) := by
  rw [dappend_eq_drop_append m hm, lastN_append_one m hm]

lemma dappend_lastN (m : ℕ) (hm : 1 ≤ m) (xs : List ℚ) (x : ℚ) :
    dappend m (lastN m xs) x = lastN m (xs ++ [x]) := by
  rw [dappend_eq_lastN m hm, lastN_append_one m hm, lastN_append_one m hm]
  congr 1
  unfold lastN
  rw [List.length_drop, List.drop_drop]
  congr 1
  omega

lemma foldl_dappend (m : ℕ) (hm : 1 ≤ m) (s : List ℚ) :
    ∀ xs : List ℚ, List.foldl (dappend m) (lastN m xs) s = lastN m (xs ++ s) := by
  induction s with
  | nil => intro xs; simp
  | cons a t ih =>
    intro xs
    rw [List.foldl_cons, dappend_lastN m hm xs a, ih (xs ++ [a]),
      List.append_assoc]
    rfl

lemma dappend_length (m : ℕ) (xs : List ℚ) (x : ℚ) :
    (dappend m xs x).length = min (xs.length + 1) m := by
  unfold dappend
  by_cases h : xs.length < m
  · rw [if_pos h, List.length_append]
    simp only [List.length_singleton]
    omega
  · rw [if_neg h, List.length_drop, List.length_append]
    simp only [List.length_singleton]
    omega

lemma zipFilter_length (s : ℚ) :
    ∀ vals tss : List ℚ, vals.length = tss.length →
      (zipFilter vals tss s).length = (visibleTimestamps tss s).length := by
  intro vals
  induction vals with
  | nil =>
    intro tss h
    have h0 : tss = [] := by
      have := h.symm
      simpa [List.length_eq_zero] using this
    subst h0
    rfl
  | cons v vs ih =>
    intro tss h
    cases tss with
    | nil => simp at h
    | cons t ts =>
      have h2 : vs.length = ts.length := by simpa using h
      by_cases hst : s ≤ t
      · simp only [zipFilter, visibleTimestamps, List.zip_cons_cons,
          List.filter_cons] at *
        simp [hst, ih ts h2]
      · simp only [zipFilter, visibleTimestamps, List.zip_cons_cons,
          List.filter_cons] at *
        simp [hst, ih ts h2]

lemma coreFields_eq (s st : SensorState) (h : coreFields s = coreFields st) :
    s.timestamps = st.timestamps ∧ s.temperatures = st.temperatures ∧
    s.temp_avg = st.temp_avg ∧ s.rel_humidities = st.rel_humidities ∧
    s.abs_humidities = st.abs_humidities ∧ s.dew_points = st.dew_points ∧
    s.start_time = st.start_time ∧ s.time_range = st.time_range ∧
    s.xlim = st.xlim := by
  simpa [coreFields, Prod.ext_iff] using h

lemma applyAx2_core (st : SensorState) (v : List ℚ) :
    coreFields (applyAx2 st v) = coreFields st := by
  cases v <;> rfl

lemma applyAx3_core (st : SensorState) (v : List ℚ) :
    coreFields (applyAx3 st v) = coreFields st := by
  cases v <;> rfl

lemma applyAx4_core (st : SensorState) (v : List ℚ) :
    coreFields (applyAx4 st v) = coreFields st := by
  cases v <;> rfl

lemma applyAx1_core (st s : SensorState) (vT vA : List ℚ)
    (h : applyAx1 st vT vA = some s) : coreFields s = coreFields st := by
  cases vT <;> cases vA <;> simp [applyAx1] at h <;> subst h <;> rfl

lemma applyAx2_ax1 (st : SensorState) (v : List ℚ) :
    (applyAx2 st v).ax1 = st.ax1 := by cases v <;> rfl

lemma applyAx2_ax3 (st : SensorState) (v : List ℚ) :
    (applyAx2 st v).ax3 = st.ax3 := by cases v <;> rfl

lemma applyAx2_ax4 (st : SensorState) (v : List ℚ) :
    (applyAx2 st v).ax4 = st.ax4 := by cases v <;> rfl

lemma applyAx3_ax1 (st : SensorState) (v : List ℚ) :
    (applyAx3 st v).ax1 = st.ax1 := by cases v <;> rfl

lemma applyAx3_ax2 (st : SensorState) (v : List ℚ) :
    (applyAx3 st v).ax2 = st.ax2 := by cases v <;> rfl

lemma applyAx3_ax4 (st : SensorState) (v : List ℚ) :
    (applyAx3 st v).ax4 = st.ax4 := by cases v <;> rfl

lemma applyAx4_ax1 (st : SensorState) (v : List ℚ) :
    (applyAx4 st v).ax1 = st.ax1 := by cases v <;> rfl

lemma applyAx4_ax2 (st : SensorState) (v : List ℚ) :
    (applyAx4 st v).ax2 = st.ax2 := by cases v <;> rfl

lemma applyAx4_ax3 (st : SensorState) (v : List ℚ) :
    (applyAx4 st v).ax3 = st.ax3 := by cases v <;> rfl

lemma applyAx1_ax2 (st s : SensorState) (vT vA : List ℚ)
    (h : applyAx1 st vT vA = some s) : s.ax2 = st.ax2 := by
  cases vT <;> cases vA <;> simp [applyAx1] at h <;> subst h <;> rfl

lemma applyAx1_ax3 (st s : SensorState) (vT vA : List ℚ)
    (h : applyAx1 st vT vA = some s) : s.ax3 = st.ax3 := by
  cases vT <;> cases vA <;> simp [applyAx1] at h <;> subst h <;> rfl

lemma applyAx1_ax4 (st s : SensorState) (vT vA : List ℚ)
    (h : applyAx1 st vT vA = some s) : s.ax4 = st.ax4 := by
  cases vT <;> cases vA <;> simp [applyAx1] at h <;> subst h <;> rfl

lemma adjust_y_eq (st : SensorState) (t : ℚ) :
    adjust_y st t = (applyAx1 st (visTempsOf st t) (visAvgsOf st t)).map
      (fun s1 => applyAx4 (applyAx3 (applyAx2 s1 (visRhsOf st t))
        (visAhsOf st t)) (visDpsOf st t)) := rfl

lemma adjust_core (st : SensorState) (t : ℚ) (s : SensorState)
    (h : adjust_y st t = some s) : coreFields s = coreFields st := by
  rw [adjust_y_eq, Option.map_eq_some'] at h
  obtain ⟨s1, h1, h2⟩ := h
  rw [← h2, applyAx4_core, applyAx3_core, applyAx2_core]
  exact applyAx1_core st s1 _ _ h1

lemma vis_length_eq_of_sameLen (st : SensorState) (t : ℚ) (h : sameLen st) :
    (visTempsOf st t).length = (visAvgsOf st t).length := by
  unfold visTempsOf visAvgsOf
  rw [zipFilter_length _ _ _ h.1, zipFilter_length _ _ _ h.2.1]

lemma adjust_total (st : SensorState) (t : ℚ) (h : sameLen st) :
    ∃ s, adjust_y st t = some s := by
  rw [adjust_y_eq]
  cases hT : visTempsOf st t with
  | nil => exact ⟨_, rfl⟩
  | cons a as =>
    have hlen := vis_length_eq_of_sameLen st t h
    rw [hT] at hlen
    cases hA : visAvgsOf st t with
    | nil => rw [hA] at hlen; simp at hlen
    | cons b bs => exact ⟨_, rfl⟩

lemma adjust_keeps_xlim_range (st : SensorState) (t : ℚ) (h : sameLen st) :
    (adjust_y st t).map (fun s => (s.xlim, s.time_range))
      = some (st.xlim, st.time_range) := by
  obtain ⟨s, hs⟩ := adjust_total st t h
  have hc := coreFields_eq _ _ (adjust_core _ _ _ hs)
  rw [hs]
  simp only [Option.map_some']
  rw [hc.2.2.2.2.2.2.2.2, hc.2.2.2.2.2.2.2.1]

lemma sameLen_of_core (s st : SensorState) (h : coreFields s = coreFields st)
    (hst : sameLen st) : sameLen s := by
  obtain ⟨e1, e2, e3, e4, e5, e6, _, _, _⟩ := coreFields_eq s st h
  unfold sameLen at *
  rw [e1, e2, e3, e4, e5, e6]
  exact hst

lemma successState_sameLen (log exp : ℚ → ℚ) (st : SensorState) (temp rh tNow : ℚ)
    (h : sameLen st) : sameLen (successState log exp st temp rh tNow) := by
  obtain ⟨h1, h2, h3, h4, h5⟩ := h
  unfold successState appendCore sameLen
  simp only [dappend_length]
  omega

lemma tickSuccess_sameLen (st2 : SensorState) (tNow tAdj : ℚ)
    (h2 : sameLen st2) : sameLen (tickSuccess st2 tNow tAdj).1 := by
  unfold tickSuccess
  cases ha : adjust_y st2 tAdj with
  | none => exact h2
  | some st3 => exact sameLen_of_core st3 _ (adjust_core _ _ _ ha) h2

lemma updateStep_sameLen (log exp : ℚ → ℚ) (st : SensorState)
    (input : Option String) (tNow tAdj : ℚ) (h : sameLen st) :
    sameLen (updateStep log exp st input tNow tAdj).1 := by
  unfold updateStep
  cases input with
  | none => exact h
  | some rawLine =>
    dsimp only
    cases hp : parsePhase rawLine with
    | wrongFields => exact h
    | floatError => exact h
    | parsed temp rh =>
      exact tickSuccess_sameLen _ tNow tAdj
        (successState_sameLen log exp st temp rh tNow h)

lemma sameLen_initState : sameLen initState := by
  unfold sameLen initState
  simp

lemma runTicks_sameLen (log exp : ℚ → ℚ) (ticks : List (Option String × ℚ × ℚ)) :
    sameLen (runTicks log exp ticks) := by
  unfold runTicks
  have key : ∀ (l : List (Option String × ℚ × ℚ)) (st : SensorState), sameLen st →
      sameLen (l.foldl (fun s t => (updateStep log exp s t.1 t.2.1 t.2.2).1) st) := by
    intro l
    induction l with
    | nil => intro st hst; exact hst
    | cons a t ih =>
      intro st hst
      exact ih _ (updateStep_sameLen log exp st a.1 a.2.1 a.2.2 hst)
  exact key ticks initState sameLen_initState

lemma tickSuccess_ok_xlim (st2 : SensorState) (tNow tAdj : ℚ)
    (h : (tickSuccess st2 tNow tAdj).2 = TickResult.ok) :
    ((tickSuccess st2 tNow tAdj).1).xlim = (tNow - st2.time_range, tNow) := by
  unfold tickSuccess at h ⊢
  cases ha : adjust_y st2 tAdj with
  | none => rw [ha] at h; simp at h
  | some st3 =>
    have hc := coreFields_eq _ _ (adjust_core _ _ _ ha)
    dsimp only
    rw [hc.2.2.2.2.2.2.2.1]

lemma successState_time_range (log exp : ℚ → ℚ) (st : SensorState)
    (temp rh tNow : ℚ) :
    (successState log exp st temp rh tNow).time_range = st.time_range := rfl

lemma updateStep_ok_xlim (log exp : ℚ → ℚ) (st : SensorState) (line : String)
    (tNow tAdj : ℚ)
    (h : (updateStep log exp st (some line) tNow tAdj).2 = TickResult.ok) :
    ((updateStep log exp st (some line) tNow tAdj).1).xlim
      = (tNow - st.time_range, tNow) := by
  unfold updateStep at h ⊢
  dsimp only at h ⊢
  cases hp : parsePhase line with
  | wrongFields => rw [hp] at h; simp at h
  | floatError => rw [hp] at h; simp at h
  | parsed temp rh =>
    rw [hp] at h
    have := tickSuccess_ok_xlim (successState log exp st temp rh tNow) tNow tAdj h
    rwa [successState_time_range] at this

lemma tickSuccess_temp_avg (st2 : SensorState) (tNow tAdj : ℚ) :
    ((tickSuccess st2 tNow tAdj).1).temp_avg = st2.temp_avg := by
  unfold tickSuccess
  cases ha : adjust_y st2 tAdj with
  | none => rfl
  | some st3 =>
    have hc := coreFields_eq _ _ (adjust_core _ _ _ ha)
    dsimp only
    exact hc.2.2.1

lemma maxPoints_pos : 1 ≤ maxPoints := by norm_num [maxPoints]

lemma applyAx1_nil (st : SensorState) (vA : List ℚ) :
    applyAx1 st [] vA = some st := rfl

lemma applyAx2_nil (st : SensorState) : applyAx2 st [] = st := rfl

lemma applyAx3_nil (st : SensorState) : applyAx3 st [] = st := rfl

lemma applyAx4_nil (st : SensorState) : applyAx4 st [] = st := rfl

lemma successState_single_avg (log exp : ℚ → ℚ) (temp rh tN : ℚ) :
    (successState log exp initState temp rh tN).temp_avg = [temp] := by
  unfold successState appendCore recentTemps initState
  simp only [dappend, List.length_nil, List.nil_append, List.zip_cons_cons,
    List.zip_nil_right, List.filter_cons, List.filter_nil, decide_eq_true_eq,
    sub_lt_self_iff]
  norm_num [maxPoints]

/-! ## Claim theorems -/

/-- C8: for every temperature `temp` and relative humidity `rh > 0`,
`calculate_dew_point temp rh` equals the Magnus-formula approximation
with constants `a = 17.27` and `b = 237.7`: with
`alpha = (a*temp)/(b+temp) + ln(rh/100)`, the result is
`b*alpha/(a-alpha)`. -/
theorem dew_point_matches_magnus (log : ℚ → ℚ) (temp rh : ℚ) (hrh : 0 < rh) :
    calculate_dew_point log temp rh = magnusDewPoint log temp rh := by
  unfold calculate_dew_point magnusDewPoint
  norm_num

/-- Witness for C8 at `temp = 21.5`, `rh = 60`. -/
theorem dew_point_matches_magnus_witness :
    (0 : ℚ) < 60 ∧
    calculate_dew_point (fun _ => 0) 21.5 60 = magnusDewPoint (fun _ => 0) 21.5 60 :=
  ⟨by norm_num, dew_point_matches_magnus (fun _ => 0) 21.5 60 (by norm_num)⟩

/-- C2: for every sequence of appends into a deque of
`maxlen = maxPoints = 4*60*60 = 14400`, the buffer size stays at most
`maxPoints` after every append, equals `min count maxPoints`, and the
retained entries are exactly the most recent `min count maxPoints`
entries in append order (FIFO eviction of the oldest). -/
theorem rollingBuffer_bounded_fifo (items : List ℚ) :
    maxPoints = 14400 ∧
    (items.foldl (dappend maxPoints) []).length ≤ maxPoints ∧
    (items.foldl (dappend maxPoints) []).length = min items.length maxPoints ∧
    items.foldl (dappend maxPoints) [] = lastN maxPoints items := by
  have hm : 1 ≤ maxPoints := by norm_num [maxPoints]
  have key : items.foldl (dappend maxPoints) [] = lastN maxPoints items := by
    have h := foldl_dappend maxPoints hm items []
    simpa [lastN] using h
  refine ⟨by norm_num [maxPoints], ?_, ?_, key⟩ <;>
    rw [key] <;> unfold lastN <;> rw [List.length_drop] <;> omega

/-- C4: the visible subset used for axis scaling is exactly the
buffered data with timestamp at least `T - D`: every point of
`visible_timestamps` satisfies the bound, no qualifying timestamp is
omitted, timestamps above `T` are retained (not dropped), and the
per-series subsets (`zipFilter`) keep exactly the values whose paired
timestamp qualifies. -/
theorem window_filter_exact (vals tss : List ℚ) (T D : ℚ) :
    (∀ x ∈ visibleTimestamps tss (T - D), T - D ≤ x) ∧
    (∀ x ∈ tss, T - D ≤ x → x ∈ visibleTimestamps tss (T - D)) ∧
    (0 ≤ D → ∀ x ∈ tss, T < x → x ∈ visibleTimestamps tss (T - D)) ∧
    (∀ p ∈ vals.zip tss, T - D ≤ p.2 → p.1 ∈ zipFilter vals tss (T - D)) ∧
    (∀ v ∈ zipFilter vals tss (T - D), ∃ ts, T - D ≤ ts ∧ (v, ts) ∈ vals.zip tss) := by
  refine ⟨?_, ?_, ?_, ?_, ?_⟩
  · intro x hx
    rw [visibleTimestamps, List.mem_filter] at hx
    simpa using hx.2
  · intro x hx hle
    rw [visibleTimestamps, List.mem_filter]
    exact ⟨hx, by simpa using hle⟩
  · intro hD x hx hTx
    rw [visibleTimestamps, List.mem_filter]
    refine ⟨hx, ?_⟩
    simp only [decide_eq_true_eq]
    linarith
  · intro p hp hle
    rw [zipFilter]
    exact List.mem_map.mpr ⟨p, List.mem_filter.mpr ⟨hp, by simpa using hle⟩, rfl⟩
  · intro v hv
    rw [zipFilter] at hv
    obtain ⟨⟨a, b⟩, hpf, rfl⟩ := List.mem_map.mp hv
    rw [List.mem_filter] at hpf
    exact ⟨b, by simpa using hpf.2, hpf.1⟩

/-- Witness for C4 with buffer timestamps `[5, 30]`, values `[1, 2]`,
`T = 25`, `D = 10` (the point at timestamp 30 lies above `T` and is
retained). -/
theorem window_filter_exact_witness :
    (30 : ℚ) ∈ visibleTimestamps [5, 30] (25 - 10) ∧
    (2 : ℚ) ∈ zipFilter [1, 2] [5, 30] (25 - 10) :=
  ⟨(window_filter_exact [1, 2] [5, 30] 25 10).2.1 30 (by simp) (by norm_num),
   (window_filter_exact [1, 2] [5, 30] 25 10).2.2.2.1 (2, 30) (by simp) (by norm_num)⟩

/-- C3: a successfully parsed reading appended to the empty (startup)
buffer stores a moving-average entry exactly equal to the reading's
temperature: the 20-second window holds only the new reading, so
`sum/len = temp/1 = temp`. -/
theorem moving_avg_single_reading (log exp : ℚ → ℚ) (line : String)
    (temp rh tN tA : ℚ) (hp : parsePhase line = ParsePhase.parsed temp rh) :
    ((updateStep log exp initState (some line) tN tA).1).temp_avg = [temp] := by
  unfold updateStep
  dsimp only
  rw [hp]
  dsimp only
  rw [tickSuccess_temp_avg, successState_single_avg]

/-- Witness for C3 on the spec's well-formed example line
`"12:00:00,21.5,60.0,0"`. -/
theorem moving_avg_single_reading_witness :
    ((updateStep (fun _ => 0) (fun _ => 0) initState
        (some "12:00:00,21.5,60.0,0") 100 100).1).temp_avg = [21.5] :=
  moving_avg_single_reading (fun _ => 0) (fun _ => 0) "12:00:00,21.5,60.0,0"
    21.5 60 100 100 (by
      have h1 : pySplit ',' (pyStrip "12:00:00,21.5,60.0,0".toList)
          = [['1', '2', ':', '0', '0', ':', '0', '0'],
             ['2', '1', '.', '5'], ['6', '0', '.', '0'], ['0']] := by decide
      have e1 : pyStrip ['2', '1', '.', '5'] = ['2', '1', '.', '5'] := by decide
      have e2 : pySplit '.' (pyBody ['2', '1', '.', '5']) = [['2', '1'], ['5']] := by
        decide
      have e3 : pyStrip ['6', '0', '.', '0'] = ['6', '0', '.', '0'] := by decide
      have e4 : pySplit '.' (pyBody ['6', '0', '.', '0']) = [['6', '0'], ['0']] := by
        decide
      have s1 : pySign ['2', '1', '.', '5'] = 1 := rfl
      have s2 : pySign ['6', '0', '.', '0'] = 1 := rfl
      have d1 : digitsVal ['2', '1'] = 21 := by decide
      have d2 : digitsVal ['5'] = 5 := by decide
      have d3 : digitsVal ['6', '0'] = 60 := by decide
      have d4 : digitsVal ['0'] = 0 := by decide
      have h2 : parseFloat ['2', '1', '.', '5'] = some 21.5 := by
        simp only [parseFloat, e1, e2, s1, d1, d2]
        rw [if_pos (by decide)]
        norm_num
      have h3 : parseFloat ['6', '0', '.', '0'] = some 60 := by
        simp only [parseFloat, e3, e4, s2, d3, d4]
        rw [if_pos (by decide)]
        norm_num
      unfold parsePhase
      rw [h1]
      dsimp only
      rw [h2]
      dsimp only
      rw [h3])

/-- C9 (implicit): the recent-temperature query for the 20-second moving
average runs after the new reading is appended, so (given the aligned
pre-state lengths) the queried list always contains the new reading and
in particular is never empty: the `else` fallback branch of
`temp.py` line 124 is unreachable on successful ticks. -/
theorem moving_avg_query_nonempty (st : SensorState) (temp rh ah dp tN : ℚ)
    (h : st.temperatures.length = st.timestamps.length) :
    temp ∈ recentTemps (appendCore st temp rh ah dp tN) tN ∧
    recentTemps (appendCore st temp rh ah dp tN) tN ≠ [] := by
  have hmem : temp ∈ recentTemps (appendCore st temp rh ah dp tN) tN := by
    unfold recentTemps appendCore
    dsimp only
    rw [dappend_eq_drop_append maxPoints maxPoints_pos,
        dappend_eq_drop_append maxPoints maxPoints_pos, h,
        List.zip_append (by simp [h])]
    refine List.mem_map.mpr ⟨(temp, tN), ?_, rfl⟩
    rw [List.mem_filter]
    refine ⟨List.mem_append_right _ (by simp), ?_⟩
    simp only [decide_eq_true_eq]
    exact sub_lt_self tN (by norm_num)
  exact ⟨hmem, List.ne_nil_of_mem hmem⟩

/-- Witness for C9: appending the reading `1` at time `0` to the empty
initial state. -/
theorem moving_avg_query_nonempty_witness :
    (1 : ℚ) ∈ recentTemps (appendCore initState 1 1 1 1 0) 0 ∧
    recentTemps (appendCore initState 1 1 1 1 0) 0 ≠ [] :=
  moving_avg_query_nonempty initState 1 1 1 1 0 rfl

/-- C10 (implicit): after every run of ticks from the initial state —
no-data ticks, skipped malformed lines, error ticks and successful
appends alike — the six series deques have equal length, and for every
window start the five filtered series all have the length of the
filtered timestamp list, so they are empty or non-empty together. -/
theorem series_stay_aligned (log exp : ℚ → ℚ)
    (ticks : List (Option String × ℚ × ℚ)) :
    sameLen (runTicks log exp ticks) ∧
    ∀ start : ℚ,
      (zipFilter (runTicks log exp ticks).temperatures
          (runTicks log exp ticks).timestamps start).length
        = (visibleTimestamps (runTicks log exp ticks).timestamps start).length ∧
      (zipFilter (runTicks log exp ticks).temp_avg
          (runTicks log exp ticks).timestamps start).length
        = (visibleTimestamps (runTicks log exp ticks).timestamps start).length ∧
      (zipFilter (runTicks log exp ticks).rel_humidities
          (runTicks log exp ticks).timestamps start).length
        = (visibleTimestamps (runTicks log exp ticks).timestamps start).length ∧
      (zipFilter (runTicks log exp ticks).abs_humidities
          (runTicks log exp ticks).timestamps start).length
        = (visibleTimestamps (runTicks log exp ticks).timestamps start).length ∧
      (zipFilter (runTicks log exp ticks).dew_points
          (runTicks log exp ticks).timestamps start).length
        = (visibleTimestamps (runTicks log exp ticks).timestamps start).length := by
  have hS := runTicks_sameLen log exp ticks
  obtain ⟨h1, h2, h3, h4, h5⟩ := hS
  exact ⟨runTicks_sameLen log exp ticks, fun start =>
    ⟨zipFilter_length start _ _ h1, zipFilter_length start _ _ h2,
     zipFilter_length start _ _ h3, zipFilter_length start _ _ h4,
     zipFilter_length start _ _ h5⟩⟩

/-- C6: when the filtered visible subset of a series is empty,
`adjust_y_axis_ranges` leaves that series' previously set y-range
unchanged, and the call returns normally (no crash) on any aligned
state. -/
theorem empty_window_leaves_axis (st : SensorState) (tA : ℚ) (h : sameLen st) :
    (adjust_y st tA).isSome = true ∧
    (visTempsOf st tA = [] → (adjust_y st tA).map SensorState.ax1 = some st.ax1) ∧
    (visRhsOf st tA = [] → (adjust_y st tA).map SensorState.ax2 = some st.ax2) ∧
    (visAhsOf st tA = [] → (adjust_y st tA).map SensorState.ax3 = some st.ax3) ∧
    (visDpsOf st tA = [] → (adjust_y st tA).map SensorState.ax4 = some st.ax4) := by
  obtain ⟨s, hs⟩ := adjust_total st tA h
  have hmain := hs
  rw [adjust_y_eq, Option.map_eq_some'] at hmain
  obtain ⟨s1, ha1, hcomp⟩ := hmain
  rw [hs]
  refine ⟨rfl, ?_, ?_, ?_, ?_⟩
  · intro hT
    rw [hT, applyAx1_nil] at ha1
    have hss : st = s1 := by simpa using ha1
    simp only [Option.map_some', Option.some.injEq]
    rw [← hcomp, applyAx4_ax1, applyAx3_ax1, applyAx2_ax1, ← hss]
  · intro hR
    simp only [Option.map_some', Option.some.injEq]
    rw [← hcomp, applyAx4_ax2, applyAx3_ax2, hR, applyAx2_nil]
    exact applyAx1_ax2 st s1 _ _ ha1
  · intro hH
    simp only [Option.map_some', Option.some.injEq]
    rw [← hcomp, applyAx4_ax3, hH, applyAx3_nil, applyAx2_ax3]
    exact applyAx1_ax3 st s1 _ _ ha1
  · intro hD
    simp only [Option.map_some', Option.some.injEq]
    rw [← hcomp, hD, applyAx4_nil, applyAx3_ax4, applyAx2_ax4]
    exact applyAx1_ax4 st s1 _ _ ha1

/-- Witness for C6: on the freshly initialised state every visible
subset is empty and all four default ranges survive. -/
theorem empty_window_leaves_axis_witness :
    ((adjust_y initState 0).isSome = true) ∧
    ((adjust_y initState 0).map SensorState.ax1 = some initState.ax1) ∧
    ((adjust_y initState 0).map SensorState.ax2 = some initState.ax2) ∧
    ((adjust_y initState 0).map SensorState.ax3 = some initState.ax3) ∧
    ((adjust_y initState 0).map SensorState.ax4 = some initState.ax4) :=
  ⟨(empty_window_leaves_axis initState 0 (by decide)).1,
   (empty_window_leaves_axis initState 0 (by decide)).2.1 rfl,
   (empty_window_leaves_axis initState 0 (by decide)).2.2.1 rfl,
   (empty_window_leaves_axis initState 0 (by decide)).2.2.2.1 rfl,
   (empty_window_leaves_axis initState 0 (by decide)).2.2.2.2 rfl⟩

/-- C5: on a non-empty visible window, `adjust_y_axis_ranges` sets the
four y-ranges to exactly the spec's formulas (temperature:
min/max over temperatures and moving averages ±1; relative humidity:
`[max(0, min-5), min(100, max+5)]`; absolute humidity ±0.5; dew point
±1), and every completed successful tick sets the shared x-range to
`[T - time_range, T]` for the tick's reference instant `T`. -/
theorem axis_ranges_formula (st : SensorState) (tA : ℚ) (h : sameLen st)
    (hT : visTempsOf st tA ≠ []) (hR : visRhsOf st tA ≠ [])
    (hH : visAhsOf st tA ≠ []) (hD : visDpsOf st tA ≠ []) :
    adjust_y st tA = some { st with
      ax1 := specTempAxis (visTempsOf st tA) (visAvgsOf st tA)
      ax2 := specRhAxis (visRhsOf st tA)
      ax3 := specAhAxis (visAhsOf st tA)
      ax4 := specDpAxis (visDpsOf st tA) } ∧
    (∀ (log exp : ℚ → ℚ) (st₂ : SensorState) (line : String) (tN tA₂ : ℚ),
      (updateStep log exp st₂ (some line) tN tA₂).2 = TickResult.ok →
      ((updateStep log exp st₂ (some line) tN tA₂).1).xlim
        = (tN - st₂.time_range, tN)) := by
  constructor
  · obtain ⟨a, as, hTe⟩ := List.exists_cons_of_ne_nil hT
    have hlen := vis_length_eq_of_sameLen st tA h
    rw [hTe] at hlen
    obtain ⟨b, bs, hAe⟩ : ∃ x xs, visAvgsOf st tA = x :: xs := by
      cases hA : visAvgsOf st tA with
      | nil => rw [hA] at hlen; simp at hlen
      | cons x xs => exact ⟨x, xs, rfl⟩
    obtain ⟨r, rs, hRe⟩ := List.exists_cons_of_ne_nil hR
    obtain ⟨u, us, hHe⟩ := List.exists_cons_of_ne_nil hH
    obtain ⟨d, ds, hDe⟩ := List.exists_cons_of_ne_nil hD
    rw [adjust_y_eq, hTe, hAe, hRe, hHe, hDe]
    simp only [applyAx1, applyAx2, applyAx3, applyAx4, Option.map_some',
      Option.some.injEq, specTempAxis, specRhAxis, specAhAxis, specDpAxis]
    norm_num
  · intro log exp st₂ line tN tA₂ hok
    exact updateStep_ok_xlim log exp st₂ line tN tA₂ hok

/-- Witness for C5 on a one-sample state (`wState`) with a wide-open
window. -/
theorem axis_ranges_formula_witness :
    adjust_y wState 10 = some { wState with
      ax1 := specTempAxis (visTempsOf wState 10) (visAvgsOf wState 10)
      ax2 := specRhAxis (visRhsOf wState 10)
      ax3 := specAhAxis (visAhsOf wState 10)
      ax4 := specDpAxis (visDpsOf wState 10) } :=
  (axis_ranges_formula wState 10 (by decide)
    (by norm_num [visTempsOf, zipFilter, wState])
    (by norm_num [visRhsOf, zipFilter, wState])
    (by norm_num [visAhsOf, zipFilter, wState])
    (by norm_num [visDpsOf, zipFilter, wState])).1

/-- C7: a selector change with index 0..4 immediately (without waiting
for a data tick) recomputes the view: the shared x-range becomes
`[now - newDuration, now]` and the stored duration becomes the selected
one (60 s, 300 s, 1200 s, 3600 s or 14400 s). -/
theorem selection_change_immediate (st : SensorState) (index : ℕ)
    (tSel tAdj : ℚ) (h : sameLen st) (hi : index ≤ 4) :
    (update_time_range st index tSel tAdj).map (fun s => (s.xlim, s.time_range))
      = some ((tSel - durationOfIndex index, tSel), durationOfIndex index) := by
  unfold update_time_range
  have h1 : sameLen
      { st with
        time_range := newRangeOfIndex index
        xlim := (tSel - newRangeOfIndex index, tSel) } := h
  rw [adjust_keeps_xlim_range _ tAdj h1]
  have hd : newRangeOfIndex index = durationOfIndex index := by
    interval_cases index <;> rfl
  rw [hd]

/-- Witness for C7: selecting index 0 (1 minute) at instant 1000. -/
theorem selection_change_immediate_witness :
    (update_time_range initState 0 1000 1000).map (fun s => (s.xlim, s.time_range))
      = some ((1000 - durationOfIndex 0, 1000), durationOfIndex 0) :=
  selection_change_immediate initState 0 1000 1000 (by decide) (by decide)

/-- C1 (code evaluation at the claim's failing input): on the line
`"12:00:00,abc,55,x"` — four comma fields, non-numeric temperature —
the tick leaves the state unchanged (the appends come after the two
`float` conversions), but it finishes with an uncaught `ValueError`
(`TickResult.error`) escaping `update_plot` instead of being skipped as
a parse failure. -/
theorem malformed_float_line_raises :
    updateStep (fun _ => 0) (fun _ => 0) initState (some "12:00:00,abc,55,x") 0 0
      = (initState, TickResult.error) := by
  have hp : parsePhase "12:00:00,abc,55,x" = ParsePhase.floatError := by decide
  unfold updateStep
  dsimp only
  rw [hp]

end TempLogger
